import Mathlib

/-
Verification of the zeroclaw tool plugins (audio_transcribe, youtube_download)
against their natural-language specification.

Shallow embedding notes:
* Each Rust `execute` is embedded as a pure Lean function from an explicit
  "world" (the outcomes of every external interaction the code can perform:
  probe results, subprocess outputs, environment variables, clock, directory
  listing, HTTP response) and an argument record to
  `Except String ToolResult × List Action`.
  `Except.error` models an `anyhow` raise (the `?` operator / `.context(..)?`);
  `Except.ok` models returning a `ToolResult`.  The `List Action` is the
  ordered trace of external operations the invocation performed, which lets
  theorems speak about "before any external work", "no network call was
  attempted", "the temp file was removed", and about the exact command line
  handed to a backend.
* Invocation arguments: the Rust code reads a `serde_json::Value` with typed
  accessors (`as_str`, `as_bool`, ...).  Each argument record field holds the
  result of the corresponding accessor (`none` = field absent or of the wrong
  type), which is exactly the information the execution path consumes.
  `subtitle_langs` is read with a three-way `match` on the JSON value, so it
  is modelled by a dedicated inductive.
* Strings: Rust `char::is_alphanumeric` / `char::is_whitespace` are
  Unicode-aware; `Char.isAlphanum` / `Char.isWhitespace` agree with them on
  ASCII, which is all the claims exercise.  `eq_ignore_ascii_case` is modelled
  via `String.toLower`.  JSON serialization of the result payloads
  (`json!(..).to_string()`) is modelled by a plain string builder; key order
  and escaping details are immaterial to every claim.  `serde_json` parsing of
  the metadata document is modelled as the raw text (its parse-failure
  fallback only affects the metadata payload, which no claim concerns).
* `println!`, `create_dir_all(..).ok()` return values, and the commented-out
  debug block are not observable and are modelled accordingly (`create_dir`
  is still recorded in the trace for ordering claims).
-/

deriving instance DecidableEq for Except

namespace ZeroClaw

/-! ## String helpers mirroring the Rust primitives used by the source -/

/-- Rust `str::trim` (whitespace on both ends), on a char list. -/
def trimChars (l : List Char) : List Char :=
  ((l.dropWhile Char.isWhitespace).reverse.dropWhile Char.isWhitespace).reverse

/-- Rust `str::trim`. -/
def rustTrim (s : String) : String :=
  (trimChars s.toList).asString

/-- `p` is a prefix of `l` (char-list level). -/
def listStarts : List Char → List Char → Bool
  | _, [] => true
  | [], _ :: _ => false
  | a :: t, b :: u => a = b && listStarts t u

/-- Rust `str::starts_with`. -/
def strStarts (s p : String) : Bool :=
  listStarts s.toList p.toList

/-- Split a char list at newline characters (keeping empty segments). -/
def splitNl : List Char → List (List Char)
  | [] => [[]]
  | c :: rest =>
    if c = '\n' then [] :: splitNl rest
    else
      match splitNl rest with
      | [] => [[c]]
      | seg :: segs => (c :: seg) :: segs

/-- Rust `str::lines`: split at `\n`, strip a trailing `\r` from each line,
and do not yield a final empty line produced by a trailing line ending. -/
def rustLines (s : String) : List String :=
  let parts := splitNl s.toList
  let parts := if parts.getLast? = some [] then parts.dropLast else parts
  parts.map (fun l => (if l.getLast? = some '\r' then l.dropLast else l).asString)

def hasSubAux : List Char → List Char → Bool
  | [], sub => sub.isEmpty
  | a :: t, sub => listStarts (a :: t) sub || hasSubAux t sub

/-- `true` iff `sub` occurs as a substring of `s` (used to state that an error
message mentions a given name). -/
def hasSub (s sub : String) : Bool :=
  hasSubAux s.toList sub.toList

/-! ## The result envelope and the external-interaction model -/

/-- `ToolResult` from `src/tools/traits.rs`, as used by both tools. -/
structure ToolResult where
  success : Bool
  output : String
  error : Option String
deriving DecidableEq

/-- Captured outcome of a completed subprocess (`std::process::Output`):
exit-status success flag plus captured stdout/stderr. -/
structure ProcOutput where
  statusOk : Bool
  stdout : String
  stderr : String
deriving DecidableEq

/-- Captured outcome of the completed OpenAI HTTP round trip: the HTTP status
success flag (which the source never consults) and the JSON body re-serialized
to text. -/
structure RemoteResponse where
  statusOk : Bool
  body : String
deriving DecidableEq

/-- One external operation performed by an invocation, in order.  Subprocess
actions carry the argument list handed to the binary (after the binary name,
mirroring the `Command::arg` calls). -/
inductive Action where
  | probeYtDlp
  | probeLocalPython
  | probeFasterWhisper
  | createDir (dir : String)
  | runListFormats (cmdArgs : List String)
  | runInfo (cmdArgs : List String)
  | runDownload (cmdArgs : List String)
  | fetchAudio (cmdArgs : List String)
  | runLocalTranscribe (cmdArgs : List String)
  | readOutputDir (dir : String)
  | callRemoteApi (filePath : String) (formFields : List (String × String))
  | removeTempFile (path : String)
deriving DecidableEq

/-! ## audio_transcribe: arguments, world, embedding -/

/-- The fields `AudioTranscribeTool::execute` reads from its JSON argument
document, each as the result of the typed accessor the code applies. -/
structure AudioArgs where
  input : Option String
  model : Option String
  language : Option String
  format : Option String
  word_timestamps : Option Bool
  initial_prompt : Option String
  output_dir : Option String
deriving DecidableEq

/-- Every external outcome an `audio_transcribe` invocation can observe.
`none` on a subprocess/HTTP field means the operation failed to start (spawn
error / request error), which the source turns into a raise via `?`. -/
structure AudioWorld where
  /-- `python3 -m faster_whisper --version` spawn succeeded (`output().is_ok()`). -/
  pythonProbeOk : Bool
  /-- `OPENAI_API_KEY` environment variable. -/
  envApiKey : Option String
  /-- `std::env::current_dir()` (resolution failure not modelled). -/
  currentDir : String
  /-- `std::env::temp_dir()`. -/
  tempDir : String
  /-- Seconds since the epoch at invocation time. -/
  nowSecs : Nat
  /-- `yt-dlp` fetch `status()`: `none` = spawn failure, `some b` = exited with success `b`. -/
  fetchStatus : Option Bool
  /-- `faster-whisper --version` spawn succeeded (`output().is_ok()`). -/
  fwProbeOk : Bool
  /-- `python3 -m faster_whisper ...` transcription run: `none` = spawn failure. -/
  localOut : Option ProcOutput
  /-- `read_dir(output_dir)` listing: `none` = `Err` (code then collects no files). -/
  outputDirListing : Option (List String)
  /-- OpenAI round trip: `none` = multipart build / send / body-parse failure (a raise). -/
  remoteResponse : Option RemoteResponse
deriving DecidableEq

/-- Temp path built at line 70 of `audio_transcribe.rs`. -/
def tempAudioPath (w : AudioWorld) : String :=
  w.tempDir ++ "/yt_audio_" ++ toString w.nowSecs ++ ".mp3"

/-- The backend-unavailable message from line 52 of `audio_transcribe.rs`. -/
def neitherBackendMsg : String :=
  "Neither faster-whisper nor OPENAI_API_KEY is available. Install faster-whisper or set OPENAI_API_KEY env var."

/-- Arguments handed to `yt-dlp` for the audio fetch (lines 71-77). -/
def fetchCmdArgs (tempPath input : String) : List String :=
  ["--extract-audio", "--audio-format", "mp3", "-o", tempPath, "--no-playlist", input]

/-- Arguments handed to `python3` for the local transcription (lines 113-126). -/
def localCmdArgs (audioPath model language format : String) (word_timestamps : Bool)
    (initial_prompt : Option String) (outputDir : String) : List String :=
  ["-m", "faster_whisper", audioPath,
   "--model", if model == "auto" then "distil-large-v3.5" else model,
   "--language", language, "--format", format, "--output_dir", outputDir]
  ++ (if word_timestamps then ["--word-timestamps"] else [])
  ++ (match initial_prompt with
      | some p => ["--initial-prompt", p]
      | none => [])

/-- Multipart text fields of the OpenAI request (lines 164-176); the audio
file part is carried separately by the `callRemoteApi` action. -/
def remoteFormFields (model language format : String) (word_timestamps : Bool)
    (initial_prompt : Option String) : List (String × String) :=
  [("model", model)]
  ++ (if language ≠ "auto" then [("language", language)] else [])
  ++ (match initial_prompt with
      | some p => [("prompt", p)]
      | none => [])
  ++ (if format == "verbose_json" || word_timestamps then
        [("response_format", "verbose_json")]
      else [])

/-- `json!(\x7b"transcript": .., "language": .., "model": .., "files": ..\x7d).to_string()`
(line 146), with serialization details approximated. -/
def mkTranscribeOutput (transcript language model : String) (files : List String) : String :=
  "\x7b\"transcript\":\"" ++ transcript ++ "\",\"language\":\"" ++ language
    ++ "\",\"model\":\"" ++ model ++ "\",\"files\":["
    ++ String.intercalate "," (files.map (fun f => "\"" ++ f ++ "\"")) ++ "]\x7d"

/-- `AudioTranscribeTool::transcribe_local` (lines 103-158). -/
def AudioTranscribeTool.transcribe_local (w : AudioWorld)
    (audioPath model language format : String) (word_timestamps : Bool)
    (initial_prompt : Option String) (outputDir : String) :
    Except String ToolResult × List Action :=
  let acts := [Action.runLocalTranscribe
    (localCmdArgs audioPath model language format word_timestamps initial_prompt outputDir)]
  match w.localOut with
  | none => (.error "faster-whisper execution failed", acts)
  | some o =>
    let transcript := if o.statusOk then rustTrim o.stdout else o.stderr
    let files := w.outputDirListing.getD []
    (.ok { success := o.statusOk,
           output := mkTranscribeOutput transcript language model files,
           error := if o.statusOk then none else some (rustTrim o.stderr) },
     acts ++ [Action.readOutputDir outputDir])

/-- `AudioTranscribeTool::transcribe_openai` (lines 160-190).  Note the source
returns `success: true` whenever the request completes and the body parses,
never consulting the HTTP status (`RemoteResponse.statusOk`). -/
def AudioTranscribeTool.transcribe_openai (w : AudioWorld)
    (audioPath model language format : String) (word_timestamps : Bool)
    (initial_prompt : Option String) :
    Except String ToolResult × List Action :=
  match w.envApiKey with
  | none => (.error "OPENAI_API_KEY not set for OpenAI fallback", [])
  | some _ =>
    let acts := [Action.callRemoteApi audioPath
      (remoteFormFields model language format word_timestamps initial_prompt)]
    match w.remoteResponse with
    | none => (.error "OpenAI transcription request failed", acts)
    | some r => (.ok { success := true, output := r.body, error := none }, acts)

/-- `AudioTranscribeTool::execute` (lines 36-99). -/
def AudioTranscribeTool.execute (w : AudioWorld) (a : AudioArgs) :
    Except String ToolResult × List Action :=
  match a.input with
  | none => (.error "Missing 'input'", [])
  | some input =>
    if !w.pythonProbeOk && w.envApiKey.isNone then
      (.ok { success := false, output := "", error := some neitherBackendMsg },
       [Action.probeLocalPython])
    else
      let model := a.model.getD "auto"
      let language := a.language.getD "auto"
      let format := a.format.getD "text"
      let word_timestamps := a.word_timestamps.getD false
      let initial_prompt := a.initial_prompt
      let outputDir := a.output_dir.getD (w.currentDir ++ "/downloads/transcripts")
      let acts0 := [Action.probeLocalPython, Action.createDir outputDir]
      if strStarts input "http" then
        let tempPath := tempAudioPath w
        let acts1 := acts0 ++ [Action.fetchAudio (fetchCmdArgs tempPath input)]
        match w.fetchStatus with
        | none => (.error "yt-dlp audio fetch failed to start", acts1)
        | some false =>
          (.ok { success := false, output := "",
                 error := some "Failed to download audio from URL" }, acts1)
        | some true =>
          let acts2 := acts1 ++ [Action.probeFasterWhisper]
          let tr := if w.fwProbeOk then
              AudioTranscribeTool.transcribe_local w tempPath model language format
                word_timestamps initial_prompt outputDir
            else
              AudioTranscribeTool.transcribe_openai w tempPath model language format
                word_timestamps initial_prompt
          match tr.1 with
          | .error e => (.error e, acts2 ++ tr.2)
          | .ok r => (.ok r, acts2 ++ tr.2 ++ [Action.removeTempFile tempPath])
      else
        let acts1 := acts0 ++ [Action.probeFasterWhisper]
        let tr := if w.fwProbeOk then
            AudioTranscribeTool.transcribe_local w input model language format
              word_timestamps initial_prompt outputDir
          else
            AudioTranscribeTool.transcribe_openai w input model language format
              word_timestamps initial_prompt
        match tr.1 with
        | .error e => (.error e, acts1 ++ tr.2)
        | .ok r => (.ok r, acts1 ++ tr.2)

/-! ## youtube_download: arguments, world, embedding -/

/-- The `subtitle_langs` JSON value as consumed by the three-way `match`
(lines 175-194): absent, a string, an array (its string elements, since
`filter_map(as_str)` drops the rest), or any other JSON type. -/
inductive SubLangs where
  | absent
  | str (s : String)
  | arr (l : List String)
  | other
deriving DecidableEq

/-- The fields `YoutubeDownloadTool::execute` reads from its JSON argument
document, each as the result of the typed accessor the code applies. -/
structure YoutubeArgs where
  url : Option String
  mode : Option String
  quality : Option String
  subtitles : Option Bool
  subtitle_langs : SubLangs
  thumbnails : Option Bool
  cookies_browser : Option String
  list_formats : Option Bool
  playlist : Option Bool
  playlist_items : Option String
  output_filename : Option String
  debug : Option Bool
deriving DecidableEq

/-- Every external outcome a `youtube_download` invocation can observe.
`none` on a subprocess field means the `output()` call failed to start, which
the source turns into a raise via `.context(..)?`. -/
structure YtWorld where
  /-- `yt-dlp --version` spawn succeeded (`output().is_ok()`). -/
  ytDlpProbeOk : Bool
  /-- `std::env::current_dir()` (resolution failure not modelled). -/
  currentDir : String
  /-- `yt-dlp -F ...` run. -/
  listFormatsOut : Option ProcOutput
  /-- `yt-dlp -J --no-download ...` metadata run. -/
  infoOut : Option ProcOutput
  /-- The main `yt-dlp` download run. -/
  downloadOut : Option ProcOutput
deriving DecidableEq

/-- The yt-dlp-missing message from line 93 of `youtube_download.rs`. -/
def ytDlpMissingMsg : String :=
  "yt-dlp not found in PATH. Install with: brew install yt-dlp ffmpeg (macOS)"

/-- Replace a character the sanitizer rejects by an underscore (line 117). -/
def sanitizeChar (c : Char) : Char :=
  if c.isAlphanum || c == ' ' || c == '-' || c == '_' then c else '_'

/-- `name.chars().map(sanitize).collect::<String>()` (lines 115-118). -/
def sanitizeName (s : String) : String :=
  (s.toList.map sanitizeChar).asString

/-- The selected output template file-name part (lines 114-124); the supplied
custom name has already been trimmed at argument-parse time (line 106). -/
def templateFor (custom_name : Option String) (playlist : Bool) : String :=
  match custom_name with
  | some name => rustTrim (sanitizeName name) ++ ".%(ext)s"
  | none =>
    if playlist then "%(playlist)s/%(playlist_index)02d - %(title)s.%(ext)s"
    else "%(title)s.%(ext)s"

/-- The language list for `--sub-langs` (lines 175-194). -/
def subtitleLangsOf : SubLangs → String
  | .absent => "en"
  | .str s => if (rustTrim s).toLower == "all" then "all" else rustTrim s
  | .arr l => String.intercalate "," l
  | .other => "en"

/-- Subtitle-related arguments (lines 171-208). -/
def subtitleCmdArgs (subtitles : Bool) (sl : SubLangs) : List String :=
  if subtitles then
    let langs := subtitleLangsOf sl
    ["--write-subs"]
    ++ (if langs ≠ "" then
          ["--sub-langs", langs]
          ++ (if langs ≠ "all" then ["--write-auto-subs"]
              else ["--sleep-requests", "1.5"])
        else [])
  else []

/-- The full argument list of the main download command (lines 164-237). -/
def downloadCmdArgs (outputTemplate url mode quality : String) (subtitles : Bool)
    (sl : SubLangs) (thumbnails : Bool) (cookies_browser : String)
    (playlist : Bool) (playlist_items : Option String) : List String :=
  ["-o", outputTemplate, "--restrict-filenames", "--no-warnings",
   "--print", "after_move:filepath:%(filepath)s",
   "--print", "thumbnail:%(thumbnail)s"]
  ++ subtitleCmdArgs subtitles sl
  ++ (if thumbnails then ["--write-thumbnail"] else [])
  ++ (if cookies_browser ≠ "none" then ["--cookies-from-browser", cookies_browser] else [])
  ++ (if playlist then
        ["--yes-playlist"]
        ++ (match playlist_items with
            | some items => ["-I", items]
            | none => [])
      else ["--no-playlist"])
  ++ (if mode == "audio" then
        ["--extract-audio", "--audio-format", "mp3", "--audio-quality", "0"]
      else
        ["--merge-output-format", "mp4"]
        ++ (if quality ≠ "" && quality ≠ "best" then
              ["-f", "bestvideo[height<=" ++ quality ++ "] + bestaudio/best"]
            else ["-f", "bestvideo+bestaudio/best"]))
  ++ [url]

/-- Argument list of the metadata command (lines 151-155). -/
def infoCmdArgs (url : String) (playlist : Bool) (playlist_items : Option String) :
    List String :=
  ["-J", "--no-download", "--no-warnings", url]
  ++ (if playlist then
        (match playlist_items with
         | some items => ["-I", items]
         | none => [])
      else [])

/-- Argument list of the format-listing command (lines 129-133). -/
def listFormatsCmdArgs (url : String) : List String :=
  ["-F", "--no-warnings", url]

/-- Values of lines of `stdout` that carry the given marker tag, trimmed
(lines 280-288). -/
def taggedValues (tag stdout : String) : List String :=
  (rustLines stdout).filterMap (fun line =>
    if strStarts line tag then some (rustTrim (line.drop tag.length)) else none)

/-- The parsed `filepath:` lines (lines 281-282). -/
def filePathsOf (stdout : String) : List String :=
  taggedValues "filepath:" stdout

/-- The parsed non-empty `thumbnail:` lines (lines 283-287). -/
def thumbnailPathsOf (stdout : String) : List String :=
  (taggedValues "thumbnail:" stdout).filter (fun p => p ≠ "")

/-- `result_json.to_string()` (lines 292-298), serialization approximated;
`metadata` is already serialized text. -/
def mkDownloadOutput (filePaths thumbPaths : List String)
    (metadata outputDir message : String) : String :=
  "\x7b\"file_paths\":["
    ++ String.intercalate "," (filePaths.map (fun f => "\"" ++ f ++ "\"")) ++ "]"
    ++ ",\"thumbnail_paths\":["
    ++ String.intercalate "," (thumbPaths.map (fun f => "\"" ++ f ++ "\"")) ++ "]"
    ++ ",\"metadata\":" ++ metadata
    ++ ",\"output_dir\":\"" ++ outputDir ++ "\""
    ++ ",\"message\":\"" ++ message ++ "\"\x7d"

/-- The download-summary message (lines 290-297). -/
def downloadMessage (filePaths : List String) : String :=
  if filePaths.isEmpty then "No files downloaded"
  else "Successfully downloaded " ++ toString filePaths.length ++ " file(s)"

/-- The `ToolResult` built from a completed main download run
(lines 277-306): parse the marker lines, compute `success` from exit status
and parsed file paths, and attach stderr as the error on failure. -/
def downloadResult (dl : ProcOutput) (metadata outputDir : String) : ToolResult :=
  let filePaths := filePathsOf dl.stdout
  let success := dl.statusOk && !filePaths.isEmpty
  { success := success,
    output := mkDownloadOutput filePaths (thumbnailPathsOf dl.stdout) metadata
      outputDir (downloadMessage filePaths),
    error := if success then none else some (rustTrim dl.stderr) }

/-- `YoutubeDownloadTool::execute` (lines 87-307). -/
def YoutubeDownloadTool.execute (w : YtWorld) (a : YoutubeArgs) :
    Except String ToolResult × List Action :=
  if w.ytDlpProbeOk then
    match a.url with
    | none => (.error "Missing 'url'", [Action.probeYtDlp])
    | some url =>
      let mode := (a.mode.getD "audio").toLower
      let quality := rustTrim (a.quality.getD "")
      let subtitles := a.subtitles.getD false
      let thumbnails := a.thumbnails.getD false
      let cookies_browser := a.cookies_browser.getD "none"
      let list_formats := a.list_formats.getD false
      let playlist := a.playlist.getD false
      let playlist_items := a.playlist_items
      let custom_name := a.output_filename.map rustTrim
      let outputDir := w.currentDir ++ "/downloads"
      let template := templateFor custom_name playlist
      let outputTemplate := outputDir ++ "/" ++ template
      let acts0 := [Action.probeYtDlp, Action.createDir outputDir]
      if list_formats then
        let acts1 := acts0 ++ [Action.runListFormats (listFormatsCmdArgs url)]
        match w.listFormatsOut with
        | none => (.error "Failed to run yt-dlp -F", acts1)
        | some o =>
          (.ok { success := o.statusOk,
                 output := if o.statusOk then o.stdout else o.stderr,
                 error := if o.statusOk then none else some "yt-dlp -F failed" },
           acts1)
      else
        let acts1 := acts0 ++ [Action.runInfo (infoCmdArgs url playlist playlist_items)]
        match w.infoOut with
        | none => (.error "Failed to fetch metadata", acts1)
        | some io =>
          let metadata := if io.statusOk then io.stdout else "\x7b\"title\":\"Unknown\"\x7d"
          let cmdArgs := downloadCmdArgs outputTemplate url mode quality subtitles
            a.subtitle_langs thumbnails cookies_browser playlist playlist_items
          let acts2 := acts1 ++ [Action.runDownload cmdArgs]
          match w.downloadOut with
          | none => (.error "yt-dlp execution failed", acts2)
          | some dl => (.ok (downloadResult dl metadata outputDir), acts2)
  else
    (.ok { success := false, output := "", error := some ytDlpMissingMsg },
     [Action.probeYtDlp])

/-! ## Observation helpers used by the claim statements -/

/-- The success flag of a returned (not raised) result. -/
def okSuccess : Except String ToolResult → Option Bool
  | .ok r => some r.success
  | .error _ => none

/-- A returned negative result carrying an error message. -/
def isNegative : Except String ToolResult → Bool
  | .ok r => !r.success && r.error.isSome
  | .error _ => false

/-- The action is the audio-fetch subprocess. -/
def isFetchAction : Action → Bool
  | .fetchAudio _ => true
  | _ => false

/-- The action is the local transcription subprocess. -/
def isLocalRunAction : Action → Bool
  | .runLocalTranscribe _ => true
  | _ => false

/-- The action is the remote transcription API round trip. -/
def isRemoteCallAction : Action → Bool
  | .callRemoteApi _ _ => true
  | _ => false

/-- The action removes a temporary file. -/
def isRemoveAction : Action → Bool
  | .removeTempFile _ => true
  | _ => false

/-- The `-o` output template of the recorded main download command, if one was
run. -/
def downloadTemplateOf (acts : List Action) : Option String :=
  (acts.filterMap (fun x =>
    match x with
    | .runDownload c =>
      match c with
      | "-o" :: t :: _ => some t
      | _ => none
    | _ => none)).head?

/-- Modelled from the spec claim C10: build the template name by replacing
every character that is not alphanumeric, a space, a hyphen or an underscore
with an underscore, trimming the result, and appending the extension
placeholder — with no initial trim of the supplied name. -/
def specSanitizedTemplate (name : String) : String :=
  rustTrim (sanitizeName name) ++ ".%(ext)s"

/-! ## Concrete invocation data for counterexamples and witnesses -/

/-- Audio args: all fields absent. -/
def audioArgsNone : AudioArgs := ⟨none, none, none, none, none, none, none⟩

/-- Audio args: a local audio file, everything else defaulted. -/
def audioArgsLocal : AudioArgs := { audioArgsNone with input := some "a.mp3" }

/-- Audio args: a remote URL input, everything else defaulted. -/
def audioArgsUrl : AudioArgs := { audioArgsNone with input := some "http://v" }

/-- A fully healthy audio world: both probes succeed, key set, fetch and
local run succeed. -/
def awBase : AudioWorld :=
  ⟨true, some "k", "/cwd", "/tmp", 7, some true, true,
   some ⟨true, "hello", ""⟩, some [], some ⟨true, "\x7b\x7d"⟩⟩

/-- Youtube args: all fields absent. -/
def ytArgsNone : YoutubeArgs :=
  ⟨none, none, none, none, .absent, none, none, none, none, none, none, none⟩

/-- Youtube args: only a URL. -/
def ytArgsUrl : YoutubeArgs := { ytArgsNone with url := some "https://y/v" }

/-- A healthy youtube world: probe succeeds, metadata and download succeed,
one file downloaded. -/
def ytwBase : YtWorld :=
  ⟨true, "/cwd", some ⟨true, "formats", ""⟩, some ⟨true, "\x7b\"title\":\"T\"\x7d", ""⟩,
   some ⟨true, "filepath: /cwd/downloads/t.mp3\n", ""⟩⟩

/-- The audio world of the C3 counterexample: local backend probe fails at
dispatch time, the key is set, and the remote HTTP round trip fails (network
error). -/
def c3World : AudioWorld := { awBase with fwProbeOk := false, remoteResponse := none }
/-- A remote error body as OpenAI returns one on a non-success response. -/
def c4Body : String := "\x7b\"error\":\x7b\"message\":\"Incorrect API key\"\x7d\x7d"

/-- The audio world of the C4 evaluation: the remote backend is chosen and its
HTTP response is non-success, with a parseable JSON error body. -/
def c4World : AudioWorld :=
  { awBase with fwProbeOk := false, remoteResponse := some ⟨false, c4Body⟩ }
/-- The audio world of the C6 counterexample: python probe succeeds (so the
gate passes), the fetch succeeds and creates the temp artifact, but the
`faster-whisper` dispatch probe fails and no key is set, so the remote
fallback raises before the cleanup line runs. -/
def c6World : AudioWorld := { awBase with envApiKey := none, fwProbeOk := false }
/-- Download args with a custom output filename whose leading character is a
tab. -/
def c10Args : YoutubeArgs := { ytArgsUrl with output_filename := some "\ta" }

/-! ## Helper lemmas -/

/-- If either the python probe succeeded or the key is set, the
neither-backend early-return guard is false. -/
lemma gate_false {p : Bool} {k : Option String} (h : (p || k.isSome) = true) :
    (!p && k.isNone) = false := by
  cases p <;> cases k <;> simp_all

lemma mem_dropWhile {α : Type} {p : α → Bool} {c : α} :
    ∀ {l : List α}, c ∈ l.dropWhile p → c ∈ l := by
  intro l h
  induction l with
  | nil => simp at h
  | cons a t ih =>
    rw [List.dropWhile_cons] at h
    split at h
    · exact List.mem_cons_of_mem _ (ih h)
    · exact h

lemma mem_trimChars {c : Char} {l : List Char} (h : c ∈ trimChars l) : c ∈ l := by
  unfold trimChars at h
  rw [List.mem_reverse] at h
  have h2 := mem_dropWhile h
  rw [List.mem_reverse] at h2
  exact mem_dropWhile h2

lemma sanitizeChar_allowed (b : Char) :
    ((sanitizeChar b).isAlphanum || (sanitizeChar b) == ' '
      || (sanitizeChar b) == '-' || (sanitizeChar b) == '_') = true := by
  unfold sanitizeChar
  split
  · assumption
  · decide

/-- Every character surviving the sanitize-and-trim pipeline is allowed. -/
lemma sanitized_allowed (t : String) :
    ∀ c ∈ (rustTrim (sanitizeName t)).toList,
      (c.isAlphanum || c == ' ' || c == '-' || c == '_') = true := by
  intro c hc
  replace hc : c ∈ trimChars (t.toList.map sanitizeChar) := hc
  have h1 : c ∈ t.toList.map sanitizeChar := mem_trimChars hc
  rcases List.mem_map.mp h1 with ⟨b, _, rfl⟩
  exact sanitizeChar_allowed b

/-- `transcribe_local` only returns results with `error` present exactly on
failure. -/
lemma transcribe_local_inv (w : AudioWorld) (p m l f : String) (wt : Bool)
    (pr : Option String) (d : String) (r : ToolResult)
    (h : (AudioTranscribeTool.transcribe_local w p m l f wt pr d).1 = Except.ok r) :
    r.error.isSome = !r.success := by
  unfold AudioTranscribeTool.transcribe_local at h
  split at h
  · simp at h
  · rename_i o heq
    simp only [Prod.fst] at h
    injection h with h
    subst h
    cases ho : o.statusOk <;> simp [ho]

/-- `transcribe_openai` only returns results with `error` present exactly on
failure (it only ever returns a success with no error). -/
lemma transcribe_openai_inv (w : AudioWorld) (p m l f : String) (wt : Bool)
    (pr : Option String) (r : ToolResult)
    (h : (AudioTranscribeTool.transcribe_openai w p m l f wt pr).1 = Except.ok r) :
    r.error.isSome = !r.success := by
  unfold AudioTranscribeTool.transcribe_openai at h
  split at h
  · simp at h
  · split at h
    · simp at h
    · simp only [Prod.fst] at h
      injection h with h
      subst h
      simp

/-- The local transcription path always records its subprocess run. -/
lemma transcribe_local_runs (w : AudioWorld) (p m l f : String) (wt : Bool)
    (pr : Option String) (d : String) :
    (AudioTranscribeTool.transcribe_local w p m l f wt pr d).2.any isLocalRunAction
      = true := by
  unfold AudioTranscribeTool.transcribe_local
  cases w.localOut <;> simp [isLocalRunAction]

/-- The local transcription path never calls the remote API. -/
lemma transcribe_local_no_remote (w : AudioWorld) (p m l f : String) (wt : Bool)
    (pr : Option String) (d : String) :
    (AudioTranscribeTool.transcribe_local w p m l f wt pr d).2.any isRemoteCallAction
      = false := by
  unfold AudioTranscribeTool.transcribe_local
  cases w.localOut <;> simp [isRemoteCallAction, isLocalRunAction]

/-- The download result has `error` present exactly on failure. -/
lemma downloadResult_inv (dl : ProcOutput) (metadata outputDir : String) :
    (downloadResult dl metadata outputDir).error.isSome
      = !(downloadResult dl metadata outputDir).success := by
  unfold downloadResult
  cases hs : (dl.statusOk && !(filePathsOf dl.stdout).isEmpty) <;> simp [hs]

/-- When the `faster-whisper` dispatch probe succeeds, no invocation ever
calls the remote API. -/
lemma no_remote_of_fw (w : AudioWorld) (a : AudioArgs) (hfw : w.fwProbeOk = true) :
    (AudioTranscribeTool.execute w a).2.any isRemoteCallAction = false := by
  cases hin : a.input with
  | none => simp [AudioTranscribeTool.execute, hin]
  | some input =>
    cases hg : (!w.pythonProbeOk && w.envApiKey.isNone) with
    | true => simp [AudioTranscribeTool.execute, hin, hg, isRemoteCallAction]
    | false =>
      cases hu : strStarts input "http" with
      | false =>
        cases hlo : w.localOut with
        | none =>
          simp [AudioTranscribeTool.execute, AudioTranscribeTool.transcribe_local,
            hin, hg, hu, hfw, hlo, isRemoteCallAction]
        | some o =>
          simp [AudioTranscribeTool.execute, AudioTranscribeTool.transcribe_local,
            hin, hg, hu, hfw, hlo, isRemoteCallAction]
      | true =>
        cases hf : w.fetchStatus with
        | none =>
          simp [AudioTranscribeTool.execute, hin, hg, hu, hf, isRemoteCallAction]
        | some b =>
          cases b with
          | false =>
            simp [AudioTranscribeTool.execute, hin, hg, hu, hf, isRemoteCallAction]
          | true =>
            cases hlo : w.localOut with
            | none =>
              simp [AudioTranscribeTool.execute, AudioTranscribeTool.transcribe_local,
                hin, hg, hu, hf, hfw, hlo, isRemoteCallAction]
            | some o =>
              simp [AudioTranscribeTool.execute, AudioTranscribeTool.transcribe_local,
                hin, hg, hu, hf, hfw, hlo, isRemoteCallAction]

/-- When the `faster-whisper` dispatch probe succeeds and the invocation
reaches the transcription step, the local backend is the one executed. -/
lemma local_run_of_fw (w : AudioWorld) (a : AudioArgs) (input : String)
    (hin : a.input = some input)
    (hgate : (w.pythonProbeOk || w.envApiKey.isSome) = true)
    (hfetch : strStarts input "http" = true → w.fetchStatus = some true)
    (hfw : w.fwProbeOk = true) :
    (AudioTranscribeTool.execute w a).2.any isLocalRunAction = true := by
  cases hu : strStarts input "http" with
  | false =>
    cases hlo : w.localOut with
    | none =>
      simp [AudioTranscribeTool.execute, AudioTranscribeTool.transcribe_local,
        hin, gate_false hgate, hu, hfw, hlo, isLocalRunAction]
    | some o =>
      simp [AudioTranscribeTool.execute, AudioTranscribeTool.transcribe_local,
        hin, gate_false hgate, hu, hfw, hlo, isLocalRunAction]
  | true =>
    have hf := hfetch hu
    cases hlo : w.localOut with
    | none =>
      simp [AudioTranscribeTool.execute, AudioTranscribeTool.transcribe_local,
        hin, gate_false hgate, hu, hf, hfw, hlo, isLocalRunAction]
    | some o =>
      simp [AudioTranscribeTool.execute, AudioTranscribeTool.transcribe_local,
        hin, gate_false hgate, hu, hf, hfw, hlo, isLocalRunAction]

/-! ## Claim C1 -/

/-- Claim C1 counterexample: with the `url` field missing, `youtube_download`'s
`execute` performs the yt-dlp availability probe first — when the probe fails
it returns a negative `ToolResult` without raising at all, and even when the
probe succeeds the raised "Missing 'url'" error comes only after the probe
has been performed. -/
theorem claim_C1_counterexample :
    (YoutubeDownloadTool.execute { ytwBase with ytDlpProbeOk := false } ytArgsNone).1
      = Except.ok { success := false, output := "", error := some ytDlpMissingMsg }
  ∧ YoutubeDownloadTool.execute ytwBase ytArgsNone
      = (Except.error "Missing 'url'", [Action.probeYtDlp]) :=
  ⟨rfl, rfl⟩

/-- Claim C1 (amended): `audio_transcribe` raises an error naming the missing
`input` field before any external work.  `youtube_download` probes yt-dlp
availability first: when the probe fails it returns a negative `ToolResult`
without validating; when the probe succeeds, a missing `url` raises an error
naming the field before any further external work. -/
theorem claim_C1_amended :
    (∀ (w : AudioWorld) (a : AudioArgs), a.input = none →
        AudioTranscribeTool.execute w a = (Except.error "Missing 'input'", []))
  ∧ (∀ (w : YtWorld) (a : YoutubeArgs), w.ytDlpProbeOk = true → a.url = none →
        YoutubeDownloadTool.execute w a
          = (Except.error "Missing 'url'", [Action.probeYtDlp]))
  ∧ (∀ (w : YtWorld) (a : YoutubeArgs), w.ytDlpProbeOk = false →
        (YoutubeDownloadTool.execute w a).1
          = Except.ok { success := false, output := "", error := some ytDlpMissingMsg }) := by
  refine ⟨?_, ?_, ?_⟩
  · intro w a h
    simp [AudioTranscribeTool.execute, h]
  · intro w a hp hu
    simp [YoutubeDownloadTool.execute, hp, hu]
  · intro w a hp
    simp [YoutubeDownloadTool.execute, hp]

/-- Claim C1 witness. -/
theorem claim_C1_witness :
    AudioTranscribeTool.execute awBase audioArgsNone = (Except.error "Missing 'input'", [])
  ∧ YoutubeDownloadTool.execute ytwBase ytArgsNone
      = (Except.error "Missing 'url'", [Action.probeYtDlp])
  ∧ (YoutubeDownloadTool.execute { ytwBase with ytDlpProbeOk := false } ytArgsNone).1
      = Except.ok { success := false, output := "", error := some ytDlpMissingMsg } :=
  ⟨claim_C1_amended.1 awBase audioArgsNone rfl,
   claim_C1_amended.2.1 ytwBase ytArgsNone rfl rfl,
   claim_C1_amended.2.2 { ytwBase with ytDlpProbeOk := false } ytArgsNone rfl⟩

/-! ## Claim C2 -/

/-- Claim C2: on the non-`list_formats` download path, the returned result is
successful exactly when the yt-dlp exit status was success AND the parsed
`filepath:` list is non-empty; in particular an empty list forces
`success = false` even on exit success. -/
theorem claim_C2_success_iff (w : YtWorld) (a : YoutubeArgs) (u : String)
    (io dl : ProcOutput)
    (hp : w.ytDlpProbeOk = true) (hu : a.url = some u)
    (hlf : a.list_formats.getD false = false)
    (hio : w.infoOut = some io) (hdl : w.downloadOut = some dl) :
    okSuccess (YoutubeDownloadTool.execute w a).1
      = some (dl.statusOk && !(filePathsOf dl.stdout).isEmpty)
  ∧ (filePathsOf dl.stdout = [] →
      okSuccess (YoutubeDownloadTool.execute w a).1 = some false) := by
  have hmain : okSuccess (YoutubeDownloadTool.execute w a).1
      = some (dl.statusOk && !(filePathsOf dl.stdout).isEmpty) := by
    simp [YoutubeDownloadTool.execute, hp, hu, hlf, hio, hdl, okSuccess, downloadResult]
  refine ⟨hmain, fun hnil => ?_⟩
  rw [hmain, hnil]
  simp

/-- Claim C2 witness: exit success with zero parsed file paths yields
`success = false`. -/
theorem claim_C2_witness :
    okSuccess (YoutubeDownloadTool.execute
        { ytwBase with downloadOut := some ⟨true, "no markers", "boom"⟩ } ytArgsUrl).1
      = some false := by
  have h := (claim_C2_success_iff
      { ytwBase with downloadOut := some ⟨true, "no markers", "boom"⟩ } ytArgsUrl
      "https://y/v" ⟨true, "\x7b\"title\":\"T\"\x7d", ""⟩ ⟨true, "no markers", "boom"⟩
      rfl rfl rfl rfl rfl).2 (by rfl)
  exact h

/-! ## Claim C3 -/


/-- Claim C3 counterexample: with a valid required field, an ordinary backend
failure — here a network error of the remote transcription request — makes
`execute` raise instead of returning a negative `ToolResult`. -/
theorem claim_C3_counterexample :
    audioArgsLocal.input = some "a.mp3"
  ∧ c3World.remoteResponse = none
  ∧ (AudioTranscribeTool.execute c3World audioArgsLocal).1
      = Except.error "OpenAI transcription request failed" :=
  ⟨rfl, rfl, rfl⟩

/-- Claim C3 (amended): with valid required fields, a backend failure that
surfaces as a non-zero exit status of a successfully spawned subprocess never
makes `execute` raise — it is returned as `ToolResult{success:false,
error:Some(..)}` (download path, format-listing path, audio-fetch path, local
transcription path); however, subprocess spawn failures after the initial
probe, a missing `OPENAI_API_KEY` at remote-fallback time, and remote network
errors do raise. -/
theorem claim_C3_amended :
    (∀ (w : YtWorld) (a : YoutubeArgs) (u : String) (io dl : ProcOutput),
        w.ytDlpProbeOk = true → a.url = some u → a.list_formats.getD false = false →
        w.infoOut = some io → w.downloadOut = some dl → dl.statusOk = false →
        isNegative (YoutubeDownloadTool.execute w a).1 = true)
  ∧ (∀ (w : YtWorld) (a : YoutubeArgs) (u : String) (o : ProcOutput),
        w.ytDlpProbeOk = true → a.url = some u → a.list_formats.getD false = true →
        w.listFormatsOut = some o → o.statusOk = false →
        isNegative (YoutubeDownloadTool.execute w a).1 = true)
  ∧ (∀ (w : AudioWorld) (a : AudioArgs) (input : String),
        a.input = some input → (w.pythonProbeOk || w.envApiKey.isSome) = true →
        strStarts input "http" = true → w.fetchStatus = some false →
        isNegative (AudioTranscribeTool.execute w a).1 = true)
  ∧ (∀ (w : AudioWorld) (a : AudioArgs) (input : String) (o : ProcOutput),
        a.input = some input → (w.pythonProbeOk || w.envApiKey.isSome) = true →
        (strStarts input "http" = true → w.fetchStatus = some true) →
        w.fwProbeOk = true → w.localOut = some o → o.statusOk = false →
        isNegative (AudioTranscribeTool.execute w a).1 = true) := by
  refine ⟨?_, ?_, ?_, ?_⟩
  · intro w a u io dl hp hu hlf hio hdl hst
    simp [YoutubeDownloadTool.execute, hp, hu, hlf, hio, hdl, hst, isNegative,
      downloadResult]
  · intro w a u o hp hu hlf hlo hst
    simp [YoutubeDownloadTool.execute, hp, hu, hlf, hlo, hst, isNegative]
  · intro w a input hin hgate hurl hfetch
    simp [AudioTranscribeTool.execute, hin, gate_false hgate, hurl, hfetch, isNegative]
  · intro w a input o hin hgate hfetch hfw hlo hst
    cases hu : strStarts input "http"
    · simp [AudioTranscribeTool.execute, hin, gate_false hgate, hu, hfw,
        AudioTranscribeTool.transcribe_local, hlo, hst, isNegative]
    · have hf := hfetch hu
      simp [AudioTranscribeTool.execute, hin, gate_false hgate, hu, hf, hfw,
        AudioTranscribeTool.transcribe_local, hlo, hst, isNegative]

/-- Claim C3 witness: each non-raising branch at a concrete input. -/
theorem claim_C3_witness :
    isNegative (YoutubeDownloadTool.execute
        { ytwBase with downloadOut := some ⟨false, "", "boom"⟩ } ytArgsUrl).1 = true
  ∧ isNegative (YoutubeDownloadTool.execute
        { ytwBase with listFormatsOut := some ⟨false, "", "boom"⟩ }
        { ytArgsUrl with list_formats := some true }).1 = true
  ∧ isNegative (AudioTranscribeTool.execute
        { awBase with fetchStatus := some false } audioArgsUrl).1 = true
  ∧ isNegative (AudioTranscribeTool.execute
        { awBase with localOut := some ⟨false, "", "err"⟩ } audioArgsLocal).1 = true :=
  ⟨claim_C3_amended.1 _ ytArgsUrl "https://y/v" ⟨true, "\x7b\"title\":\"T\"\x7d", ""⟩
     ⟨false, "", "boom"⟩ rfl rfl rfl rfl rfl rfl,
   claim_C3_amended.2.1 _ _ "https://y/v" ⟨false, "", "boom"⟩ rfl rfl rfl rfl rfl,
   claim_C3_amended.2.2.1 _ audioArgsUrl "http://v" rfl rfl rfl rfl,
   claim_C3_amended.2.2.2 _ audioArgsLocal "a.mp3" ⟨false, "", "err"⟩ rfl rfl
     (by decide) rfl rfl rfl⟩

/-! ## Claim C4 -/


/-- Claim C4, evaluated on the code: the remote backend returns a non-success
response, yet `execute` returns `success = true` with no error — the source
never consults the HTTP status (`transcribe_openai`, lines 178-189). -/
theorem claim_C4_code_eval :
    c4World.remoteResponse = some { statusOk := false, body := c4Body }
  ∧ (AudioTranscribeTool.execute c4World audioArgsLocal).1
      = Except.ok { success := true, output := c4Body, error := none } :=
  ⟨rfl, rfl⟩

/-! ## Claim C5 -/

/-- Claim C5: with neither the local backend available nor the remote
credential set, `execute` immediately returns a negative result whose message
names both backends and their remediation, and the only external action
performed is the (input-independent) local-backend probe — no fetch, no
transcription subprocess, no network call. -/
theorem claim_C5_neither_backend (w : AudioWorld) (a : AudioArgs) (input : String)
    (hin : a.input = some input)
    (hpy : w.pythonProbeOk = false) (_hfw : w.fwProbeOk = false)
    (hkey : w.envApiKey = none) :
    AudioTranscribeTool.execute w a
      = (Except.ok { success := false, output := "", error := some neitherBackendMsg },
         [Action.probeLocalPython])
  ∧ hasSub neitherBackendMsg "faster-whisper" = true
  ∧ hasSub neitherBackendMsg "OPENAI_API_KEY" = true
  ∧ hasSub neitherBackendMsg "Install faster-whisper" = true
  ∧ hasSub neitherBackendMsg "set OPENAI_API_KEY env var" = true
  ∧ (AudioTranscribeTool.execute w a).2.any isFetchAction = false
  ∧ (AudioTranscribeTool.execute w a).2.any isLocalRunAction = false
  ∧ (AudioTranscribeTool.execute w a).2.any isRemoteCallAction = false := by
  have hmain : AudioTranscribeTool.execute w a
      = (Except.ok { success := false, output := "", error := some neitherBackendMsg },
         [Action.probeLocalPython]) := by
    simp [AudioTranscribeTool.execute, hin, hpy, hkey]
  refine ⟨hmain, rfl, rfl, rfl, rfl, ?_, ?_, ?_⟩ <;> rw [hmain] <;> rfl

/-- Claim C5 witness. -/
theorem claim_C5_witness :
    AudioTranscribeTool.execute
        { awBase with pythonProbeOk := false, fwProbeOk := false, envApiKey := none }
        audioArgsLocal
      = (Except.ok { success := false, output := "", error := some neitherBackendMsg },
         [Action.probeLocalPython]) :=
  (claim_C5_neither_backend _ audioArgsLocal "a.mp3" rfl rfl rfl rfl).1

/-! ## Claim C6 -/


/-- Claim C6 counterexample: a URL invocation whose fetch succeeded but whose
transcription step raises exits without removing the temporary audio
artifact — cleanup is an ad hoc happy-path delete (lines 93-96), not a scoped
release. -/
theorem claim_C6_counterexample :
    (AudioTranscribeTool.execute c6World audioArgsUrl).1
      = Except.error "OPENAI_API_KEY not set for OpenAI fallback"
  ∧ (AudioTranscribeTool.execute c6World audioArgsUrl).2.any isRemoveAction = false :=
  ⟨rfl, rfl⟩

/-- Claim C6 (amended): for a URL input whose fetch succeeded, the temporary
audio artifact is removed before `execute` returns on every exit path on
which `execute` returns a `ToolResult` (successful or negative); when the
transcription step raises, the artifact is not removed. -/
theorem claim_C6_amended (w : AudioWorld) (a : AudioArgs) (input : String)
    (r : ToolResult)
    (hin : a.input = some input) (hurl : strStarts input "http" = true)
    (hgate : (w.pythonProbeOk || w.envApiKey.isSome) = true)
    (hfetch : w.fetchStatus = some true)
    (hok : (AudioTranscribeTool.execute w a).1 = Except.ok r) :
    Action.removeTempFile (tempAudioPath w) ∈ (AudioTranscribeTool.execute w a).2 := by
  simp only [AudioTranscribeTool.execute, hin, gate_false hgate, hurl, hfetch,
    Bool.false_eq_true, if_false, if_true] at hok ⊢
  split at hok
  · simp at hok
  · simp

/-- Claim C6 witness: a healthy URL invocation removes the temp artifact. -/
theorem claim_C6_witness :
    Action.removeTempFile (tempAudioPath awBase)
      ∈ (AudioTranscribeTool.execute awBase audioArgsUrl).2 :=
  claim_C6_amended awBase audioArgsUrl "http://v"
    { success := true,
      output := mkTranscribeOutput "hello" "auto" "auto" [],
      error := none }
    rfl rfl rfl rfl rfl

/-! ## Claim C7 -/


/-- Claim C7: the backend executed is the one the availability probe selects —
whenever the local-backend probe succeeds, the local subprocess is the backend
run and the remote API is never called; conversely the remote API is only ever
called when the local-backend probe failed. -/
theorem claim_C7_backend_selection :
    (∀ (w : AudioWorld) (a : AudioArgs) (input : String),
        a.input = some input →
        (w.pythonProbeOk || w.envApiKey.isSome) = true →
        (strStarts input "http" = true → w.fetchStatus = some true) →
        w.fwProbeOk = true →
        (AudioTranscribeTool.execute w a).2.any isLocalRunAction = true
        ∧ (AudioTranscribeTool.execute w a).2.any isRemoteCallAction = false)
  ∧ (∀ (w : AudioWorld) (a : AudioArgs),
        (AudioTranscribeTool.execute w a).2.any isRemoteCallAction = true →
        w.fwProbeOk = false) := by
  constructor
  · intro w a input hin hgate hfetch hfw
    exact ⟨local_run_of_fw w a input hin hgate hfetch hfw, no_remote_of_fw w a hfw⟩
  · intro w a h
    cases hfw : w.fwProbeOk
    · rfl
    · rw [no_remote_of_fw w a hfw] at h
      exact absurd h (by simp)

/-- Claim C7 witness: with the local probe succeeding at a concrete input, the
local backend runs and the remote API is not called. -/
theorem claim_C7_witness :
    (AudioTranscribeTool.execute awBase audioArgsLocal).2.any isLocalRunAction = true
  ∧ (AudioTranscribeTool.execute awBase audioArgsLocal).2.any isRemoteCallAction
      = false :=
  claim_C7_backend_selection.1 awBase audioArgsLocal "a.mp3" rfl rfl (by decide) rfl

/-! ## Claim C8 -/

/-- Claim C8: every `ToolResult` returned (not raised) by either tool's
`execute` has `error` present exactly when `success` is false. -/
theorem claim_C8_error_iff_failure :
    (∀ (w : AudioWorld) (a : AudioArgs) (r : ToolResult),
        (AudioTranscribeTool.execute w a).1 = Except.ok r →
        r.error.isSome = !r.success)
  ∧ (∀ (w : YtWorld) (a : YoutubeArgs) (r : ToolResult),
        (YoutubeDownloadTool.execute w a).1 = Except.ok r →
        r.error.isSome = !r.success) := by
  constructor
  · intro w a r h
    unfold AudioTranscribeTool.execute at h
    simp only [] at h
    repeat' split at h
    all_goals try simp only [Prod.fst] at h
    all_goals first
      | (simp at h
         done)
      | (injection h with h
         subst h
         first
           | rfl
           | (rename_i heq hfw
              first
                | (rw [if_pos hfw] at heq
                   exact transcribe_local_inv _ _ _ _ _ _ _ _ _ heq)
                | (rw [if_neg hfw] at heq
                   exact transcribe_openai_inv _ _ _ _ _ _ _ _ heq)))
  · intro w a r h
    unfold YoutubeDownloadTool.execute at h
    simp only [] at h
    repeat' split at h
    all_goals try simp only [Prod.fst] at h
    all_goals first
      | (simp at h
         done)
      | (injection h with h
         subst h
         first
           | rfl
           | exact downloadResult_inv _ _ _
           | simp_all)

/-- Claim C8 witness: the probe-failure result of the downloader satisfies the
invariant. -/
theorem claim_C8_witness :
    (ToolResult.mk false "" (some ytDlpMissingMsg)).error.isSome
      = !(ToolResult.mk false "" (some ytDlpMissingMsg)).success :=
  claim_C8_error_iff_failure.2 { ytwBase with ytDlpProbeOk := false } ytArgsNone
    (ToolResult.mk false "" (some ytDlpMissingMsg)) rfl

/-! ## Claim C9 -/

/-- Claim C9: for every schema field with a declared default (audio: `model`,
`language`, `format`, `word_timestamps`; downloader: `mode`, `subtitles`,
`thumbnails`, `cookies_browser`, `playlist`, `list_formats`, `debug`),
invoking `execute` with the field absent behaves identically — same raised or
returned result and same external-action trace — to invoking it with the
field explicitly set to its declared default. -/
theorem claim_C9_defaults :
    (∀ (w : AudioWorld) (a : AudioArgs),
        AudioTranscribeTool.execute w { a with model := none }
          = AudioTranscribeTool.execute w { a with model := some "auto" }
      ∧ AudioTranscribeTool.execute w { a with language := none }
          = AudioTranscribeTool.execute w { a with language := some "auto" }
      ∧ AudioTranscribeTool.execute w { a with format := none }
          = AudioTranscribeTool.execute w { a with format := some "text" }
      ∧ AudioTranscribeTool.execute w { a with word_timestamps := none }
          = AudioTranscribeTool.execute w { a with word_timestamps := some false })
  ∧ (∀ (w : YtWorld) (a : YoutubeArgs),
        YoutubeDownloadTool.execute w { a with mode := none }
          = YoutubeDownloadTool.execute w { a with mode := some "audio" }
      ∧ YoutubeDownloadTool.execute w { a with subtitles := none }
          = YoutubeDownloadTool.execute w { a with subtitles := some false }
      ∧ YoutubeDownloadTool.execute w { a with thumbnails := none }
          = YoutubeDownloadTool.execute w { a with thumbnails := some false }
      ∧ YoutubeDownloadTool.execute w { a with cookies_browser := none }
          = YoutubeDownloadTool.execute w { a with cookies_browser := some "none" }
      ∧ YoutubeDownloadTool.execute w { a with playlist := none }
          = YoutubeDownloadTool.execute w { a with playlist := some false }
      ∧ YoutubeDownloadTool.execute w { a with list_formats := none }
          = YoutubeDownloadTool.execute w { a with list_formats := some false }
      ∧ YoutubeDownloadTool.execute w { a with debug := none }
          = YoutubeDownloadTool.execute w { a with debug := some false }) := by
  constructor
  · intro w a
    cases a
    exact ⟨rfl, rfl, rfl, rfl⟩
  · intro w a
    cases a
    exact ⟨rfl, rfl, rfl, rfl, rfl, rfl, rfl⟩

/-! ## Claim C10 -/


/-- Claim C10 counterexample: for the supplied name `"\ta"`, the template the
code hands to yt-dlp uses the stem `a` (the name is trimmed before
sanitization, line 106), while the claimed pipeline — sanitize every
character, then trim — yields the stem `_a`. -/
theorem claim_C10_counterexample :
    downloadTemplateOf (YoutubeDownloadTool.execute ytwBase c10Args).2
      = some "/cwd/downloads/a.%(ext)s"
  ∧ specSanitizedTemplate "\ta" = "_a.%(ext)s"
  ∧ downloadTemplateOf (YoutubeDownloadTool.execute ytwBase c10Args).2
      ≠ some ("/cwd/downloads/" ++ specSanitizedTemplate "\ta") :=
  ⟨rfl, rfl, by decide⟩

/-- Claim C10 (amended): the output template passed to the backend is built by
first trimming the supplied name, then replacing every character that is not
alphanumeric, a space, `-` or `_` with `_`, trimming the result, and appending
`.%(ext)s` under the downloads directory; every character of the sanitized
stem is alphanumeric, a space, `-` or `_`. -/
theorem claim_C10_amended (w : YtWorld) (a : YoutubeArgs) (u name : String)
    (io : ProcOutput)
    (hp : w.ytDlpProbeOk = true) (hu : a.url = some u)
    (hname : a.output_filename = some name)
    (hlf : a.list_formats.getD false = false)
    (hio : w.infoOut = some io) :
    downloadTemplateOf (YoutubeDownloadTool.execute w a).2
      = some (w.currentDir ++ "/downloads" ++ "/"
          ++ (rustTrim (sanitizeName (rustTrim name)) ++ ".%(ext)s"))
  ∧ ∀ c ∈ (rustTrim (sanitizeName (rustTrim name))).toList,
      (c.isAlphanum || c == ' ' || c == '-' || c == '_') = true := by
  constructor
  · cases hdl : w.downloadOut with
    | none =>
      simp [YoutubeDownloadTool.execute, hp, hu, hname, hlf, hio, hdl,
        downloadTemplateOf, downloadCmdArgs, templateFor]
    | some dl =>
      simp [YoutubeDownloadTool.execute, hp, hu, hname, hlf, hio, hdl,
        downloadTemplateOf, downloadCmdArgs, templateFor]
  · exact sanitized_allowed (rustTrim name)

/-- Claim C10 witness. -/
theorem claim_C10_witness :
    downloadTemplateOf (YoutubeDownloadTool.execute ytwBase c10Args).2
      = some ("/cwd" ++ "/downloads" ++ "/"
          ++ (rustTrim (sanitizeName (rustTrim "\ta")) ++ ".%(ext)s"))
  ∧ ∀ c ∈ (rustTrim (sanitizeName (rustTrim "\ta"))).toList,
      (c.isAlphanum || c == ' ' || c == '-' || c == '_') = true :=
  claim_C10_amended ytwBase c10Args "https://y/v" "\ta"
    ⟨true, "\x7b\"title\":\"T\"\x7d", ""⟩ rfl rfl rfl rfl rfl

end ZeroClaw
